import Mathlib

/-!
Shallow embedding of parts of the torch_em repository, for checking its
natural-language specification.  Each definition is translated from the
Python source file named in its doc comment; filesystem contents and the
values of loaded images are passed in explicitly as state.
-/

set_option linter.unusedVariables false

/-- Python exceptions raised by the embedded code. -/
inductive PyError where
  | attributeError (attr : String)
  | valueError (msg : String)
  | runtimeError (msg : String)
  | notImplementedError
  | assertionError
  | indexError
  | unboundLocalError (name : String)
deriving Repr, DecidableEq

deriving instance DecidableEq for Except

/-- Values stored in an `argparse.Namespace` attribute (only the shapes of
values the torch_em CLI parsers can produce). -/
inductive Val where
  | vnone
  | vstr (s : String)
  | vint (n : Int)
  | vfloat (numTimes100 : Int)
  | vints (l : List Int)
  | vstrs (l : List String)
deriving Repr, DecidableEq

/-- An `argparse.Namespace`: a finite map from attribute names to values.
Attribute access on a missing name raises `AttributeError` in Python. -/
abbrev Namespace := List (String × Val)

/-- `getattr`-style attribute lookup on a namespace; reading an attribute the
parser never defined raises `AttributeError` (as `argparse.Namespace` does). -/
def nsGet (ns : Namespace) (attr : String) : Except PyError Val :=
  match ns.find? (fun p => p.1 == attr) with
  | some p => .ok p.2
  | none => .error (.attributeError attr)

/-- The namespace produced by `_get_training_parser` in `torch_em/cli.py`
(lines 20-43): exactly these attributes are defined, optional ones default
to `None`.  Note that it defines `validation_input_key`, not
`validation_key`, and that it does not define `scale_factors`. -/
def mkTrainingNamespace
    (training_inputs training_labels : List String)
    (training_input_key training_label_key : Option String)
    (validation_inputs validation_labels : Option (List String))
    (validation_input_key validation_label_key : Option String)
    (batch_size : Int) (patch_shape : List Int) (n_iterations : Int)
    (label_mode name : Option String) (train_fraction : Int) : Namespace :=
  [ ("training_inputs", .vstrs training_inputs),
    ("training_labels", .vstrs training_labels),
    ("training_input_key", match training_input_key with | none => .vnone | some s => .vstr s),
    ("training_label_key", match training_label_key with | none => .vnone | some s => .vstr s),
    ("validation_inputs", match validation_inputs with | none => .vnone | some l => .vstrs l),
    ("validation_labels", match validation_labels with | none => .vnone | some l => .vstrs l),
    ("validation_input_key", match validation_input_key with | none => .vnone | some s => .vstr s),
    ("validation_label_key", match validation_label_key with | none => .vnone | some s => .vstr s),
    ("batch_size", .vint batch_size),
    ("patch_shape", .vints patch_shape),
    ("n_iterations", .vint n_iterations),
    ("label_mode", match label_mode with | none => .vnone | some s => .vstr s),
    ("name", match name with | none => .vnone | some s => .vstr s),
    ("train_fraction", .vfloat train_fraction) ]

/-- The namespace of `train_3d_unet` (cli.py lines 189-192): the training
parser plus the extra `scale_factors` argument. -/
def mk3dNamespace (ns : Namespace) (scale_factors : Option String) : Namespace :=
  ns ++ [("scale_factors", match scale_factors with | none => .vnone | some s => .vstr s)]

/-- `_get_offsets` from `torch_em/cli.py` (lines 47-64). -/
def get_offsets (ndim : Nat) (scale_factors : Val) : List (List Int) :=
  if ndim == 2 then
    [[-1, 0], [0, -1], [-3, 0], [0, -3], [-9, 0], [0, -9], [-27, 0], [0, -27]]
  else if ndim == 3 && scale_factors == Val.vnone then
    [ [-1, 0, 0], [0, -1, 0], [0, 0, -1],
      [-3, 0, 0], [0, -3, 0], [0, 0, -3],
      [-9, 0, 0], [0, -9, 0], [0, 0, -9],
      [-27, 0, 0], [0, -27, 0], [0, 0, -27] ]
  else
    [ [-1, 0, 0], [0, -1, 0], [0, 0, -1],
      [-2, 0, 0], [0, -3, 0], [0, 0, -3],
      [-3, 0, 0], [0, -9, 0], [0, 0, -9],
      [-4, 0, 0], [0, -27, 0], [0, 0, -27] ]

/-- The label transforms a loader can be configured with
(`torch_em.transform.label`, as instantiated by the CLI). -/
inductive LabelTransform where
  | affinity (offsets : List (List Int)) (add_binary_target add_mask : Bool)
  | boundary (add_binary_target : Bool)
  | labels_to_binary
deriving Repr, DecidableEq

/-- The tuple `label_modes` from `_get_loader` (cli.py lines 71-75); note the
source's typo "affinties". -/
def label_modes : List String :=
  ["affinties", "affinities_and_foreground", "boundaries", "boundaries_and_foreground", "foreground"]

/-- The label-transform selection of `_get_loader` (cli.py lines 68-94).
In the final `else` branch the source interpolates `args.label_model` into
the `ValueError` message; no parser defines `label_model`, so evaluating the
f-string raises `AttributeError` before the `ValueError` is constructed. -/
def selectLabelTransform (ns : Namespace) (ndim : Nat) :
    Except PyError (Option LabelTransform) := do
  let m ← nsGet ns "label_mode"
  if m == Val.vnone then
    pure none
  else if m == Val.vstr "affinities" then
    let sf ← nsGet ns "scale_factors"
    pure (some (.affinity (get_offsets ndim sf) false true))
  else if m == Val.vstr "affinities_and_foreground" then
    let sf ← nsGet ns "scale_factors"
    pure (some (.affinity (get_offsets ndim sf) true true))
  else if m == Val.vstr "boundaries" then
    pure (some (.boundary false))
  else if m == Val.vstr "boundaries_and_foreground" then
    pure (some (.boundary true))
  else if m == Val.vstr "foreground" then
    pure (some .labels_to_binary)
  else do
    let bad ← nsGet ns "label_model"
    throw (.valueError ("Unknown label mode, expect one of " ++ String.intercalate ", " label_modes))

/-- The patch-shape validation of `_get_loader` (cli.py lines 96-105).
Python's `and` short-circuits: `patch_shape[0]` is only evaluated when the
length test already failed, and raises `IndexError` on an empty list. -/
def validatePatchShape (patch_shape : List Int) (ndim : Nat) :
    Except PyError Unit :=
  if ndim == 2 then
    if patch_shape.length != 2 then
      match patch_shape.head? with
      | none => .error .indexError
      | some p0 =>
          if p0 != 1 then .error (.valueError "Invalid patch_shape for 2d data.")
          else .ok ()
    else .ok ()
  else if ndim == 3 then
    if patch_shape.length != 3 then .error (.valueError "Invalid patch_shape for 3d data.")
    else .ok ()
  else .error (.runtimeError "Invalid ndim")

/-- A data loader as configured by `_get_loader` (the call into
`torch_em.default_segmentation_dataset` / `get_data_loader` is external
library code and is modelled as succeeding with this configuration). -/
structure Loader where
  input_paths : List String
  input_key : Val
  label_paths : List String
  label_key : Val
  patch_shape : List Int
  ndim : Nat
  label_transform : Option LabelTransform
deriving Repr, DecidableEq

/-- `_get_loader` (cli.py lines 67-130) up to the checks it performs itself;
`perform_split=False` so a single loader is returned. -/
def get_loader (input_paths : List String) (input_key : Val)
    (label_paths : List String) (label_key : Val)
    (ns : Namespace) (ndim : Nat) : Except PyError Loader := do
  let lt ← selectLabelTransform ns ndim
  let ps ← nsGet ns "patch_shape"
  let patch_shape := match ps with | .vints l => l | _ => []
  let _ ← validatePatchShape patch_shape ndim
  pure { input_paths := input_paths, input_key := input_key,
         label_paths := label_paths, label_key := label_key,
         patch_shape := patch_shape, ndim := ndim, label_transform := lt }

/-- `_get_loader` with `perform_split=True` (cli.py lines 116-125): one
dataset is built and randomly split into a train and a val loader. -/
def get_loader_split (input_paths : List String) (input_key : Val)
    (label_paths : List String) (label_key : Val)
    (ns : Namespace) (ndim : Nat) : Except PyError (Loader × Loader) := do
  let l ← get_loader input_paths input_key label_paths label_key ns ndim
  pure (l, l)

/-- Coerce a namespace value to an optional string list (how the CLI uses
`training_inputs` etc.). -/
def valToPaths : Val → List String
  | .vstrs l => l
  | _ => []

/-- Coerce a namespace value to an optional string (keys). -/
def valToKey (v : Val) : Val := v

/-- `_get_loaders` from `torch_em/cli.py` (lines 133-151).  In the branch
where validation inputs are given, the training loader is built first; the
second call then evaluates `args.validation_key`, an attribute no parser
defines (`validation_input_key` is the defined one), so an
`AttributeError` is raised before the validation loader is constructed. -/
def get_loaders (ns : Namespace) (ndim : Nat) : Except PyError (Loader × Loader) := do
  let vi ← nsGet ns "validation_inputs"
  if vi == Val.vnone then do
    let ti ← nsGet ns "training_inputs"
    let tik ← nsGet ns "training_input_key"
    let tl ← nsGet ns "training_labels"
    let tlk ← nsGet ns "training_label_key"
    get_loader_split (valToPaths ti) tik (valToPaths tl) tlk ns ndim
  else do
    let ti ← nsGet ns "training_inputs"
    let tik ← nsGet ns "training_input_key"
    let tl ← nsGet ns "training_labels"
    let tlk ← nsGet ns "training_label_key"
    let train_loader ← get_loader (valToPaths ti) tik (valToPaths tl) tlk ns ndim
    let vik ← nsGet ns "validation_key"
    let vl ← nsGet ns "validation_labels"
    let vlk ← nsGet ns "validation_label_key"
    let val_loader ← get_loader (valToPaths vi) vik (valToPaths vl) vlk ns ndim
    pure (train_loader, val_loader)

/-- A namespace of the 2d training CLI with the given label mode. -/
def nsWithMode (m : Option String) : Namespace :=
  mkTrainingNamespace ["raw.h5"] ["labels.h5"] none none none none none none 1 [64, 64] 100 m none 80

/-- A namespace of the 3d training CLI with the given label mode and scale factors. -/
def nsWithMode3 (m : Option String) (sf : Option String) : Namespace :=
  mk3dNamespace (mkTrainingNamespace ["raw.h5"] ["labels.h5"] none none none none none none 1 [64, 64, 64] 100 m none 80) sf

/-- C1: the label-mode selection of `_get_loader` evaluated on parsed
namespaces.  The known modes select the claimed transforms ("affinities" and
"affinities_and_foreground" an affinity transform with mask, "boundaries" and
"boundaries_and_foreground" a boundary transform, "foreground" the
labels-to-binary transform, `None` no transform); but for an unknown mode the
`raise ValueError` line interpolates `args.label_model` (a typo for
`label_mode`; no parser defines `label_model`), so Python raises
`AttributeError`, not the claimed `ValueError` naming the unknown mode.
Additionally, "affinities" on a namespace of the 2d CLI raises
`AttributeError` for `scale_factors`, which only the 3d parser defines. -/
theorem cli_label_mode_selection_bug :
    selectLabelTransform (nsWithMode (some "inst_seg")) 2 = .error (.attributeError "label_model")
  ∧ selectLabelTransform (nsWithMode none) 2 = .ok none
  ∧ selectLabelTransform (nsWithMode (some "boundaries")) 2 = .ok (some (.boundary false))
  ∧ selectLabelTransform (nsWithMode (some "boundaries_and_foreground")) 2 = .ok (some (.boundary true))
  ∧ selectLabelTransform (nsWithMode (some "foreground")) 2 = .ok (some .labels_to_binary)
  ∧ selectLabelTransform (nsWithMode3 (some "affinities") none) 3
      = .ok (some (.affinity (get_offsets 3 .vnone) false true))
  ∧ selectLabelTransform (nsWithMode3 (some "affinities_and_foreground") none) 3
      = .ok (some (.affinity (get_offsets 3 .vnone) true true))
  ∧ selectLabelTransform (nsWithMode (some "affinities")) 2 = .error (.attributeError "scale_factors") := by
  decide

/-- C10: the patch-shape validation of `_get_loader`: for `ndim = 2` a
`ValueError` is raised exactly when the shape's length is not 2 and its first
entry is not 1 (so any shape whose first entry is 1 is accepted regardless of
its length, and any length-2 shape is accepted regardless of its entries); for
`ndim = 3` exactly the length-3 shapes are accepted; every other `ndim` raises
`RuntimeError`.  The parser's `nargs="+"` guarantees a non-empty patch shape,
which is the hypothesis here. -/
theorem cli_patch_shape_rules (ps : List Int) (ndim : Nat) (h : ps ≠ []) :
    (validatePatchShape ps 2 = .error (.valueError "Invalid patch_shape for 2d data.")
        ↔ ps.length ≠ 2 ∧ ps.head? ≠ some 1)
  ∧ (validatePatchShape ps 2 = .ok () ↔ ps.length = 2 ∨ ps.head? = some 1)
  ∧ (validatePatchShape ps 3 = .ok () ↔ ps.length = 3)
  ∧ (ps.length ≠ 3 → validatePatchShape ps 3 = .error (.valueError "Invalid patch_shape for 3d data."))
  ∧ (ndim ≠ 2 → ndim ≠ 3 → validatePatchShape ps ndim = .error (.runtimeError "Invalid ndim")) := by
  obtain ⟨p0, tl, rfl⟩ := List.exists_cons_of_ne_nil h
  refine ⟨?_, ?_, ?_, ?_, ?_⟩
  · by_cases hl : tl.length = 1
    · simp [validatePatchShape, hl]
    · by_cases h1 : p0 = 1 <;> simp [validatePatchShape, hl, h1]
  · by_cases hl : tl.length = 1
    · simp [validatePatchShape, hl]
    · by_cases h1 : p0 = 1 <;> simp [validatePatchShape, hl, h1]
  · by_cases hl : tl.length = 2 <;> simp [validatePatchShape, hl]
  · intro h3
    have hl : tl.length ≠ 2 := by simpa using h3
    simp [validatePatchShape, hl]
  · intro hn2 hn3
    simp [validatePatchShape, hn2, hn3]

/-- Witness for `cli_patch_shape_rules` at a concrete patch shape. -/
theorem cli_patch_shape_rules_witness :
    validatePatchShape [1, 512, 512] 2 = .ok () :=
  (cli_patch_shape_rules [1, 512, 512] 0 (by decide)).2.1.mpr (Or.inr rfl)

/-- C8 counterexample: a namespace produced by the training parser with
validation inputs provided on which `_get_loaders` raises `ValueError` (from
the patch-shape validation of the training loader), not `AttributeError`. -/
theorem cli_validation_not_always_attribute_error :
    get_loaders (mkTrainingNamespace ["raw.h5"] ["lab.h5"] none none (some ["val.h5"]) none
        none none 1 [5] 100 none none 80) 2
      = .error (.valueError "Invalid patch_shape for 2d data.") := by
  decide

/-- C8 (amended): for every namespace produced by the training parser in which
validation inputs are provided and whose training-loader stage succeeds (the
label-mode selection and the patch-shape validation do not raise),
`_get_loaders` raises an `AttributeError` for `validation_key` — an attribute
the parser never defines (it defines `validation_input_key`) — before the
validation loader is constructed; valid train/val loader pairs can therefore
only be produced via the split-off path where validation inputs are omitted. -/
theorem cli_validation_key_attribute_error
    (ti tl : List String) (tik tlk : Option String)
    (vi : List String) (vl : Option (List String)) (vik vlk : Option String)
    (b : Int) (p : List Int) (n : Int) (m nm : Option String) (tf : Int)
    (ndim : Nat) (lt : Option LabelTransform)
    (hsel : selectLabelTransform (mkTrainingNamespace ti tl tik tlk (some vi) vl vik vlk b p n m nm tf) ndim = .ok lt)
    (hps : validatePatchShape p ndim = .ok ()) :
    get_loaders (mkTrainingNamespace ti tl tik tlk (some vi) vl vik vlk b p n m nm tf) ndim
      = .error (.attributeError "validation_key") := by
  simp only [mkTrainingNamespace] at hsel
  simp [get_loaders, get_loader, nsGet, mkTrainingNamespace, List.find?, bind, Except.bind,
    pure, Except.pure, hsel, hps]

/-- Witness for `cli_validation_key_attribute_error` at a concrete namespace. -/
theorem cli_validation_key_attribute_error_witness :
    get_loaders (mkTrainingNamespace ["raw.h5"] ["lab.h5"] none none (some ["val.h5"]) none
        none none 1 [64, 64] 100 none none 80) 2
      = .error (.attributeError "validation_key") :=
  cli_validation_key_attribute_error ["raw.h5"] ["lab.h5"] none none ["val.h5"] none none none
    1 [64, 64] 100 none none 80 2 none (by decide) (by decide)

/-!
`experiments/shallow2deep/em-mitochondria/train_mito_3d.py` (claims about
`normalize_datasets` and `require_rfs_ds`).  Python float literals are
represented as 100-fold scaled integers (0.05 becomes 5).
-/

/-- Python's string `<`/`<=` compares code points lexicographically; the same
order as `≤` on the underlying character lists. -/
def pyStrLe (a b : String) : Prop := a.data ≤ b.data

instance : DecidableRel pyStrLe := fun a b => inferInstanceAs (Decidable (a.data ≤ b.data))

instance : IsTotal String pyStrLe := ⟨fun a b => le_total a.data b.data⟩

instance : IsTrans String pyStrLe := ⟨fun _ _ _ h1 h2 => le_trans h1 h2⟩

/-- `DATASETS` from train_mito_3d.py (line 15). -/
def DATASETS : List String := ["lucchi", "platy", "urocell"]

/-- `DATA_ROOT` from train_mito_3d.py (line 14). -/
def DATA_ROOT : String := "/scratch/pape/s2d-mitochondria"

/-- `normalize_datasets` (train_mito_3d.py lines 18-23): `wrong_ds` is the set
difference of the requested names and `DATASETS` (modelled as the deduplicated
list of offending names; Python's `set` iteration order is arbitrary), put into
a `ValueError` when non-empty; otherwise `sorted(datasets)` is returned. -/
def normalize_datasets (datasets : List String) : Except PyError (List String) :=
  let wrong_ds := (datasets.filter (fun d => !DATASETS.contains d)).dedup
  if wrong_ds ≠ [] then
    .error (.valueError ("Unkown datasets: " ++ String.intercalate ", " wrong_ds ++
      ". Only " ++ String.intercalate ", " DATASETS ++ " are supported"))
  else
    .ok (List.insertionSort pyStrLe datasets)

/-- C5: `normalize_datasets` raises a `ValueError` listing the offending names
iff some requested name is not one of "lucchi", "platy", "urocell", and
otherwise returns the requested names as a sorted permutation. -/
theorem normalize_datasets_spec (datasets : List String) :
    ((∃ d ∈ datasets, d ∉ DATASETS) ↔ ∃ e, normalize_datasets datasets = .error e)
  ∧ ((∀ d ∈ datasets, d ∈ DATASETS) →
        normalize_datasets datasets = .ok (List.insertionSort pyStrLe datasets)
      ∧ (List.insertionSort pyStrLe datasets).Perm datasets
      ∧ (List.insertionSort pyStrLe datasets).Sorted pyStrLe)
  ∧ ((∃ d ∈ datasets, d ∉ DATASETS) →
        normalize_datasets datasets = .error (.valueError ("Unkown datasets: " ++
          String.intercalate ", " ((datasets.filter (fun d => !DATASETS.contains d)).dedup) ++
          ". Only " ++ String.intercalate ", " DATASETS ++ " are supported"))) := by
  have hkey : (datasets.filter (fun d => !DATASETS.contains d)).dedup = []
      ↔ ∀ d ∈ datasets, d ∈ DATASETS := by
    rw [List.dedup_eq_nil, List.filter_eq_nil_iff]
    simp
  by_cases hw : (datasets.filter (fun d => !DATASETS.contains d)).dedup = []
  · have hall := hkey.mp hw
    have hok : normalize_datasets datasets = .ok (List.insertionSort pyStrLe datasets) := by
      simp only [normalize_datasets]
      rw [if_neg (fun hcon => hcon hw)]
    refine ⟨?_, fun _ => ⟨hok, List.perm_insertionSort _ _, List.sorted_insertionSort _ _⟩, ?_⟩
    · constructor
      · rintro ⟨d, hd, hnd⟩
        exact absurd (hall d hd) hnd
      · rintro ⟨e, he⟩
        rw [hok] at he
        cases he
    · rintro ⟨d, hd, hnd⟩
      exact absurd (hall d hd) hnd
  · have herr : normalize_datasets datasets = .error (.valueError ("Unkown datasets: " ++
        String.intercalate ", " ((datasets.filter (fun d => !DATASETS.contains d)).dedup) ++
        ". Only " ++ String.intercalate ", " DATASETS ++ " are supported")) := by
      simp only [normalize_datasets]
      rw [if_pos hw]
    have hex : ∃ d ∈ datasets, d ∉ DATASETS := by
      by_contra hc
      push_neg at hc
      exact hw (hkey.mpr hc)
    exact ⟨⟨fun _ => ⟨_, herr⟩, fun _ => hex⟩,
      fun hall => absurd (hkey.mpr hall) hw, fun _ => herr⟩

/-- Witness for `normalize_datasets_spec`: two valid names come back sorted. -/
theorem normalize_datasets_spec_witness :
    normalize_datasets ["urocell", "lucchi"] = .ok ["lucchi", "urocell"] := by
  have h := (normalize_datasets_spec ["urocell", "lucchi"]).2.1 (by decide)
  rw [h.1]
  decide

/-- Filesystem/state of the shallow2deep mitochondria experiment as
`require_rfs_ds` observes it. -/
structure S2DFS where
  pklCount : String → Nat
  lucchiTrainPresent : Bool
  urocellPaths : List String
  urocellHasMito : String → Bool

/-- `require_ds` (train_mito_3d.py lines 26-45).  `_require_lucchi_data` and
`_require_urocell_data` are external torch_em library calls, modelled through
the filesystem state they establish.  Dataset "platy" raises
`NotImplementedError`; any name outside `DATASETS` falls through every branch
and hits the final `return` with `paths` unbound. -/
def require_ds (fs : S2DFS) (dataset : String) :
    Except PyError (List String × String × String) :=
  if dataset == "lucchi" then
    let paths := [DATA_ROOT ++ "/lucchi/lucchi_train.h5"]
    if fs.lucchiTrainPresent then .ok (paths, "raw", "labels")
    else .error .assertionError
  else if dataset == "platy" then .error .notImplementedError
  else if dataset == "urocell" then
    let paths := (fs.urocellPaths.filter fs.urocellHasMito).dropLast
    .ok (paths, "raw", "labels/mito")
  else .error (.unboundLocalError "paths")

/-- The random-forest preparation performed by `require_rfs_ds`: `skip` is the
early return; the other constructors record the keyword arguments of the
`prepare_shallow2deep` (vanilla) / `prepare_shallow2deep_advanced` calls
(`sample_fraction_per_stage` scaled by 100: 5 stands for 0.05). -/
inductive PrepAction where
  | skip
  | vanilla (paths : List String) (raw_key label_key : String)
      (patch_shape_min patch_shape_max : List Nat)
      (n_forests n_threads : Nat) (output_folder : String)
  | advanced (paths : List String) (raw_key label_key : String)
      (patch_shape_min patch_shape_max : List Nat)
      (n_forests n_threads : Nat)
      (forests_per_stage sample_fraction_per_stage_times_100 : Nat)
      (sampling_strategy : String) (tile_shape : Option (List Nat))
      (output_folder : String)
deriving Repr, DecidableEq

/-- `require_rfs_ds` (train_mito_3d.py lines 48-83).  The preparation calls
read `n_rfs` and `n_threads` from the global `args`, passed here explicitly as
`args_n_rfs` / `args_n_threads` (the `n_rfs` parameter itself is only used in
the early-return check). -/
def require_rfs_ds (fs : S2DFS) (dataset : String) (n_rfs : Nat)
    (sampling_strategy : String) (args_n_rfs args_n_threads : Nat) :
    Except PyError PrepAction :=
  let out_folder := DATA_ROOT ++ "/rfs3d-" ++ sampling_strategy ++ "/" ++ dataset
  if fs.pklCount out_folder == n_rfs then .ok .skip
  else do
    let (paths, raw_key, label_key) ← require_ds fs dataset
    if sampling_strategy == "vanilla" then
      .ok (.vanilla paths raw_key label_key [64, 64, 64] [96, 128, 128]
        args_n_rfs args_n_threads out_folder)
    else
      .ok (.advanced paths raw_key label_key [64, 64, 64] [96, 128, 128]
        args_n_rfs args_n_threads 25 5 sampling_strategy
        (if sampling_strategy == "worst_tiles" then some [16, 16, 16] else none)
        out_folder)

/-- C2 counterexample: with an empty forest folder (0 pkl files, not 500),
`require_rfs_ds` for dataset "platy" raises `NotImplementedError` from
`require_ds` instead of running any forest preparation. -/
theorem require_rfs_ds_platy_not_implemented :
    require_rfs_ds (S2DFS.mk (fun _ => 0) true [] (fun _ => false)) "platy" 500 "vanilla" 500 32
      = .error .notImplementedError := by
  decide

/-- C2 (amended): `require_rfs_ds` returns without preparing forests exactly
when the output folder `rfs3d-<strategy>/<dataset>` holds exactly `n_rfs`
".pkl" files; for any other count it first resolves the dataset (which for
"platy" raises `NotImplementedError`), and when that succeeds it runs the
"vanilla" preparation for strategy "vanilla" and the advanced staged
preparation — `forests_per_stage = 25`, `sample_fraction_per_stage = 0.05`,
plus `tile_shape = [16,16,16]` only for "worst_tiles" — for every other
strategy. -/
theorem require_rfs_ds_spec (fs : S2DFS) (dataset : String) (n_rfs : Nat)
    (strategy : String) (anr ant : Nat) :
    (require_rfs_ds fs dataset n_rfs strategy anr ant = .ok .skip ↔
        fs.pklCount (DATA_ROOT ++ "/rfs3d-" ++ strategy ++ "/" ++ dataset) = n_rfs)
  ∧ (fs.pklCount (DATA_ROOT ++ "/rfs3d-" ++ strategy ++ "/" ++ dataset) ≠ n_rfs →
      ∀ paths rk lk, require_ds fs dataset = .ok (paths, rk, lk) →
        require_rfs_ds fs dataset n_rfs strategy anr ant =
          if strategy = "vanilla" then
            .ok (.vanilla paths rk lk [64, 64, 64] [96, 128, 128] anr ant
              (DATA_ROOT ++ "/rfs3d-" ++ strategy ++ "/" ++ dataset))
          else
            .ok (.advanced paths rk lk [64, 64, 64] [96, 128, 128] anr ant 25 5
              strategy (if strategy = "worst_tiles" then some [16, 16, 16] else none)
              (DATA_ROOT ++ "/rfs3d-" ++ strategy ++ "/" ++ dataset))) := by
  by_cases hc : fs.pklCount (DATA_ROOT ++ "/rfs3d-" ++ strategy ++ "/" ++ dataset) = n_rfs
  · refine ⟨by simp [require_rfs_ds, hc], fun hc' => absurd hc hc'⟩
  · constructor
    · simp only [require_rfs_ds, beq_iff_eq, hc, if_false, reduceIte]
      constructor
      · intro h
        exfalso
        rcases hds : require_ds fs dataset with e | r
        · rw [hds] at h
          simp [bind, Except.bind] at h
        · obtain ⟨paths, rk, lk⟩ := r
          rw [hds] at h
          by_cases hv : strategy = "vanilla" <;>
            simp [bind, Except.bind, hv] at h
      · exact fun h => h.elim
    · intro _ paths rk lk hds
      simp only [require_rfs_ds, beq_iff_eq, hc, if_false, reduceIte]
      rw [hds]
      by_cases hv : strategy = "vanilla" <;>
        by_cases hw : strategy = "worst_tiles" <;>
        simp [bind, Except.bind, hv, hw]

/-- Witness for `require_rfs_ds_spec`: concrete state with an empty forest
folder, dataset "lucchi", strategy "worst_tiles". -/
theorem require_rfs_ds_spec_witness :
    require_rfs_ds (S2DFS.mk (fun _ => 0) true [] (fun _ => false)) "lucchi" 500 "worst_tiles" 500 32
      = .ok (.advanced ["/scratch/pape/s2d-mitochondria/lucchi/lucchi_train.h5"] "raw" "labels"
          [64, 64, 64] [96, 128, 128] 500 32 25 5 "worst_tiles" (some [16, 16, 16])
          "/scratch/pape/s2d-mitochondria/rfs3d-worst_tiles/lucchi") := by
  have h := (require_rfs_ds_spec (S2DFS.mk (fun _ => 0) true [] (fun _ => false))
      "lucchi" 500 "worst_tiles" 500 32).2 (by decide)
      ["/scratch/pape/s2d-mitochondria/lucchi/lucchi_train.h5"] "raw" "labels" (by decide)
  rw [h]
  decide

/-!
`torch_em/self_training/logger.py`: `SelfTrainingTensorboardLogger` (claim C3).
Each logging method is modelled by the list of tensorboard events it emits, in
order.
-/

/-- A tensorboard event emitted by the self-training logger. -/
inductive TBEvent where
  | scalar (tag : String) (step : Nat)
  | image (tag : String) (step : Nat)
deriving Repr, DecidableEq

/-- `_add_supervised_images` (logger.py lines 21-26): one image grid; the
`name` argument is interpolated into the tag. -/
def add_supervised_images (step : Nat) (name : String) : List TBEvent :=
  [.image (name ++ "/supervised/input-labels-prediction") step]

/-- `_add_unsupervised_images` (logger.py lines 29-41): one image grid; the
tag `im_name` is computed before `name` is mutated for the label filter. -/
def add_unsupervised_images (step : Nat) (name : String) : List TBEvent :=
  [.image (name ++ "/unsupervised/aug1-aug2-prediction-pseudolabels") step]

/-- `log_train_supervised` (logger.py lines 49-52): the loss scalar always,
the image grid only when `step % log_image_interval == 0` (the method passes
`"validation"` as the image name even for training). -/
def log_train_supervised (log_image_interval step : Nat) : List TBEvent :=
  [.scalar "train/supervised/loss" step] ++
  (if step % log_image_interval == 0 then add_supervised_images step "validation" else [])

/-- `log_validation_supervised` (logger.py lines 54-57): loss scalar, metric
scalar and the image grid, unconditionally. -/
def log_validation_supervised (log_image_interval step : Nat) : List TBEvent :=
  [.scalar "validation/supervised/loss" step, .scalar "validation/supervised/metric" step] ++
  add_supervised_images step "validation"

/-- `log_train_unsupervised` (logger.py lines 59-62): the loss scalar always,
the image grid only when `step % log_image_interval == 0`. -/
def log_train_unsupervised (log_image_interval step : Nat) : List TBEvent :=
  [.scalar "train/unsupervised/loss" step] ++
  (if step % log_image_interval == 0 then add_unsupervised_images step "validation" else [])

/-- `log_validation_unsupervised` (logger.py lines 64-67): loss scalar, metric
scalar and the image grid, unconditionally. -/
def log_validation_unsupervised (log_image_interval step : Nat) : List TBEvent :=
  [.scalar "validation/unsupervised/loss" step, .scalar "validation/unsupervised/metric" step] ++
  add_unsupervised_images step "validation"

/-- C3: `log_train_supervised` and `log_train_unsupervised` emit their loss
scalar on every call but emit the image grid exactly when the step is
divisible by the trainer's `log_image_interval`, whereas
`log_validation_supervised` and `log_validation_unsupervised` emit both their
scalars (loss and metric) and the image grid on every call, for every step.
(`log_image_interval` is positive; at 0 Python's `%` would raise
`ZeroDivisionError`.) -/
theorem self_training_logger_events (interval step : Nat) (hpos : 0 < interval) :
    ((.scalar "train/supervised/loss" step) ∈ log_train_supervised interval step
      ∧ ((.image "validation/supervised/input-labels-prediction" step)
            ∈ log_train_supervised interval step ↔ interval ∣ step))
  ∧ ((.scalar "train/unsupervised/loss" step) ∈ log_train_unsupervised interval step
      ∧ ((.image "validation/unsupervised/aug1-aug2-prediction-pseudolabels" step)
            ∈ log_train_unsupervised interval step ↔ interval ∣ step))
  ∧ log_validation_supervised interval step =
      [.scalar "validation/supervised/loss" step,
       .scalar "validation/supervised/metric" step,
       .image "validation/supervised/input-labels-prediction" step]
  ∧ log_validation_unsupervised interval step =
      [.scalar "validation/unsupervised/loss" step,
       .scalar "validation/unsupervised/metric" step,
       .image "validation/unsupervised/aug1-aug2-prediction-pseudolabels" step] := by
  have hdvd : interval ∣ step ↔ step % interval = 0 := Nat.dvd_iff_mod_eq_zero
  refine ⟨⟨by simp [log_train_supervised], ?_⟩, ⟨by simp [log_train_unsupervised], ?_⟩, rfl, rfl⟩
  · rw [hdvd]
    by_cases hm : step % interval = 0 <;>
      simp [log_train_supervised, add_supervised_images, hm]
  · rw [hdvd]
    by_cases hm : step % interval = 0 <;>
      simp [log_train_unsupervised, add_unsupervised_images, hm]

/-- Witness for `self_training_logger_events` at interval 100, step 250. -/
theorem self_training_logger_events_witness :
    (.image "validation/supervised/input-labels-prediction" 250)
        ∉ log_train_supervised 100 250
  ∧ log_validation_supervised 100 250 =
      [.scalar "validation/supervised/loss" 250,
       .scalar "validation/supervised/metric" 250,
       .image "validation/supervised/input-labels-prediction" 250] := by
  have h := self_training_logger_events 100 250 (by decide)
  exact ⟨fun hm => absurd ((h.1.2).mp hm) (by decide), h.2.2.1⟩

/-!
`torch_em/model/unetr.py`: shape semantics of `UNETR.preprocess`,
`UNETR.postprocess_masks` and `UNETR.forward` (claim C4).  Tensors are tracked
by their two spatial dimensions; the encoder-decoder core is an arbitrary
shape function, and the optional `ResizeLongestSide` transform (external
`segment_anything` code) is an arbitrary shape function as well.
-/

/-- The two spatial dimensions of a tensor. -/
structure Shape2 where
  h : Nat
  w : Nat
deriving Repr, DecidableEq

/-- Shape effect of `F.interpolate(x, size)`: the output has the requested
spatial size. -/
def interpolate_shape (masks target : Shape2) : Shape2 := target

/-- Shape effect of the slice `masks[..., :a, :b]`. -/
def crop_shape (masks : Shape2) (a b : Nat) : Shape2 :=
  ⟨min masks.h a, min masks.w b⟩

/-- Shape effect of `F.pad(x, (0, padw, 0, padh))` where `padh`/`padw` may be
negative (Python then crops). -/
def pad_shape (masks : Shape2) (padh padw : Int) : Shape2 :=
  ⟨((masks.h : Int) + padh).toNat, ((masks.w : Int) + padw).toNat⟩

/-- `UNETR.preprocess` (unetr.py lines 168-191), spatial shapes only: the
optional resize transform is applied, the resulting `input_shape` is
recorded, and the image is padded to the encoder's square `img_size`
(normalisation does not change shapes).  Returns the padded shape and the
recorded `input_shape`. -/
def preprocess_shape (transform : Option (Shape2 → Shape2)) (img_size : Nat)
    (x : Shape2) : Shape2 × Shape2 :=
  let x1 := match transform with
    | some t => t x
    | none => x
  let input_shape := x1
  let padh : Int := (img_size : Int) - x1.h
  let padw : Int := (img_size : Int) - x1.w
  (pad_shape x1 padh padw, input_shape)

/-- `UNETR.postprocess_masks` (unetr.py lines 193-207), spatial shapes only:
interpolate to the square `img_size`, crop to `input_size` (the recorded
pre-padding shape), then interpolate to `original_size`. -/
def postprocess_masks_shape (img_size : Nat) (input_size original_size masks : Shape2) :
    Shape2 :=
  let m1 := interpolate_shape masks ⟨img_size, img_size⟩
  let m2 := crop_shape m1 input_size.h input_size.w
  interpolate_shape m2 original_size

/-- `UNETR.forward` (unetr.py lines 209-259), spatial shapes only: record the
original shape, preprocess, run the encoder/decoder/conv core, and
postprocess with the recorded `input_shape` and `original_shape`. -/
def forward_shape (transform : Option (Shape2 → Shape2)) (img_size : Nat)
    (core : Shape2 → Shape2) (x : Shape2) : Shape2 :=
  let original_shape := x
  let (xp, input_shape) := preprocess_shape transform img_size x
  let y := core xp
  postprocess_masks_shape img_size input_shape original_shape y

/-- C4: for every input, `UNETR.forward` returns an output whose two spatial
dimensions equal those of the input; `preprocess` pads the (possibly resized)
image to the encoder's square `img_size` and records the pre-padding shape,
and `postprocess_masks` first crops to that recorded shape (never beyond the
`img_size` frame) and then interpolates back to the original input shape. -/
theorem unetr_forward_preserves_spatial_shape
    (transform : Option (Shape2 → Shape2)) (img_size : Nat)
    (core : Shape2 → Shape2) (x : Shape2) :
    forward_shape transform img_size core x = x
  ∧ (preprocess_shape transform img_size x).1 = ⟨img_size, img_size⟩
  ∧ (preprocess_shape transform img_size x).2 =
      (match transform with | some t => t x | none => x)
  ∧ (∀ input_size original_size masks : Shape2,
      postprocess_masks_shape img_size input_size original_size masks =
        interpolate_shape
          (crop_shape (interpolate_shape masks ⟨img_size, img_size⟩)
            input_size.h input_size.w)
          original_size) := by
  have key : ∀ s : Shape2,
      pad_shape s ((img_size : Int) - s.h) ((img_size : Int) - s.w) = ⟨img_size, img_size⟩ := by
    intro s
    simp only [pad_shape, Shape2.mk.injEq]
    constructor <;> omega
  refine ⟨rfl, ?_, rfl, fun _ _ _ => rfl⟩
  cases transform <;> simp [preprocess_shape, key]

/-!
String helpers shared by the dataset-path models: Python's `str.replace`,
`pathlib.Path(...).stem` and the `natsort.natsorted` order, implemented on
character lists (fuel-based where the recursion is not structural, with fuel
bounded by the string length so it never runs out).
-/

/-- Whether `pat` occurs at the head of `l`. -/
def startsWithChars : List Char → List Char → Bool
  | [], _ => true
  | _ :: _, [] => false
  | p :: ps, c :: cs => p == c && startsWithChars ps cs

/-- Python `str.replace`: replace all non-overlapping occurrences of `pat`,
scanning left to right (`fuel ≥ length of the scanned list`; an empty pattern
is never used by the modelled code and is treated as a no-op). -/
def replaceCharsFuel : Nat → List Char → List Char → List Char → List Char
  | 0, _, _, l => l
  | fuel + 1, pat, rep, l =>
    match l with
    | [] => []
    | c :: cs =>
      if startsWithChars pat l then
        match pat with
        | [] => l
        | _ :: ptl => rep ++ replaceCharsFuel fuel pat rep (List.drop ptl.length cs)
      else c :: replaceCharsFuel fuel pat rep cs

/-- Python `s.replace(pat, rep)`. -/
def pyReplace (s pat rep : String) : String :=
  ⟨replaceCharsFuel (s.data.length + 1) pat.data rep.data s.data⟩

/-- `pathlib.Path(name).stem` for a file name with an extension: everything
before the last dot (the name itself if it has no dot). -/
def pyStem (name : String) : String :=
  match (name.data.reverse.dropWhile (fun c => c != '.')) with
  | [] => name
  | _ :: rest => ⟨rest.reverse⟩

/-- The numeric value of a digit run. -/
def digitsVal (ds : List Char) : Nat :=
  ds.foldl (fun n c => 10 * n + (c.toNat - 48)) 0

/-- The natsort key: maximal digit runs become numbers, other runs stay as
character runs (`fuel ≥ length of the list`). -/
def natKeyFuel : Nat → List Char → List (Nat ⊕ List Char)
  | 0, _ => []
  | _ + 1, [] => []
  | fuel + 1, c :: cs =>
    if c.isDigit then
      .inl (digitsVal (c :: cs.takeWhile Char.isDigit)) ::
        natKeyFuel fuel (cs.dropWhile Char.isDigit)
    else
      .inr (c :: cs.takeWhile (fun x => !x.isDigit)) ::
        natKeyFuel fuel (cs.dropWhile (fun x => !x.isDigit))

/-- The natsort key of a string. -/
def natKey (s : String) : List (Nat ⊕ List Char) :=
  natKeyFuel (s.data.length + 1) s.data

/-- Strict comparison of natsort tokens (numbers sort before letter runs). -/
def natTokLt : (Nat ⊕ List Char) → (Nat ⊕ List Char) → Bool
  | .inl m, .inl n => decide (m < n)
  | .inl _, .inr _ => true
  | .inr _, .inl _ => false
  | .inr a, .inr b => decide (a < b)

/-- Lexicographic order on natsort keys. -/
def natKeyLe : List (Nat ⊕ List Char) → List (Nat ⊕ List Char) → Bool
  | [], _ => true
  | _ :: _, [] => false
  | a :: as, b :: bs =>
    if natTokLt a b then true else if natTokLt b a then false else natKeyLe as bs

/-- The `natsort.natsorted` order on strings. -/
def natLe (a b : String) : Bool := natKeyLe (natKey a) (natKey b)

/-- `natsorted` on strings. -/
def natsorted (l : List String) : List String :=
  List.insertionSort (fun a b => natLe a b = true) l

/-!
`torch_em/data/datasets/medical/m2caiseg.py` (claims C6 and C9).
-/

/-- A filesystem path split into its directory part and its file name, as
`os.path.join` builds it and `os.path.split(p)[-1]` takes it apart (file
names returned by `glob` over a directory contain no separator). -/
structure PyPath where
  dir : String
  name : String
deriving Repr, DecidableEq

/-- The path string `dir/name`. -/
def PyPath.render (p : PyPath) : String := p.dir ++ "/" ++ p.name

/-- `natsorted` on paths (which compares the rendered path strings). -/
def natsortedPaths (l : List PyPath) : List PyPath :=
  List.insertionSort (fun a b => natLe a.render b.render = true) l

/-- The extracted m2caiSeg data directory and the images it contains:
`listing folder sub` is the file names matching the glob pattern in
`<data_dir>/<folder>/<sub>` ("images" holds the `*.jpg`, "groundtruth" the
`*.png` files), and `shape p` is the shape of the array `imageio.imread(p)`
loads. -/
structure M2FS where
  listing : String → String → List String
  shape : PyPath → List Nat

/-- `natsorted(glob(os.path.join(data_dir, folder, sub, pattern)))`. -/
def m2_glob (fs : M2FS) (dataDir folder sub : String) : List PyPath :=
  natsortedPaths ((fs.listing folder sub).map
    (fun n => ⟨dataDir ++ "/" ++ folder ++ "/" ++ sub, n⟩))

/-- The collection loop of `_get_m2caiseg_paths` (m2caiseg.py lines 74-101):
pairs whose loaded shapes differ are skipped; for kept pairs the original
image path and the preprocessed mask path `<mask_dir>/<gt stem>.tif` are
appended (the writes of the preprocessed `.tif` files do not affect the
returned lists and are not tracked). -/
def m2_collect (fs : M2FS) (mask_dir : String) :
    List (PyPath × PyPath) → List PyPath × List PyPath
  | [] => ([], [])
  | (ip, gp) :: rest =>
    let (ris, rgs) := m2_collect fs mask_dir rest
    if fs.shape ip ≠ fs.shape gp then (ris, rgs)
    else (ip :: ris, (⟨mask_dir, pyStem gp.name ++ ".tif"⟩ : PyPath) :: rgs)

/-- `_get_m2caiseg_paths` (m2caiseg.py lines 44-102). -/
def get_m2caiseg_paths (fs : M2FS) (dataDir split : String) :
    List PyPath × List PyPath :=
  let pair :=
    if split == "val" then
      let impaths := m2_glob fs dataDir "train" "images"
      let gpaths := m2_glob fs dataDir "train" "groundtruth"
      let imids := impaths.map PyPath.name
      let gids := gpaths.map PyPath.name
      ((m2_glob fs dataDir "trainval" "images").filter (fun p => !imids.contains p.name),
       (m2_glob fs dataDir "trainval" "groundtruth").filter (fun p => !gids.contains p.name))
    else
      (m2_glob fs dataDir split "images", m2_glob fs dataDir split "groundtruth")
  let mask_dir := dataDir ++ "/preprocessed_masks"
  m2_collect fs mask_dir (pair.1.zip pair.2)

/-- The collection loop equals a filter of the zipped pairs followed by the
two projections (original image path; preprocessed mask path). -/
theorem m2_collect_eq (fs : M2FS) (md : String) (prs : List (PyPath × PyPath)) :
    m2_collect fs md prs =
      ((prs.filter (fun pr => fs.shape pr.1 == fs.shape pr.2)).map (fun pr => pr.1),
       (prs.filter (fun pr => fs.shape pr.1 == fs.shape pr.2)).map
         (fun pr => (⟨md, pyStem pr.2.name ++ ".tif"⟩ : PyPath))) := by
  induction prs with
  | nil => rfl
  | cons hd tl ih =>
    obtain ⟨ip, gp⟩ := hd
    by_cases hsh : fs.shape ip = fs.shape gp <;>
      simp [m2_collect, List.filter_cons, hsh, ih]

/-- C6 counterexample: on a concrete data directory with one matching pair in
the "train" folder, the returned ground-truth list holds the preprocessed
mask path `preprocessed_masks/frame1.tif`, which is not a file of the
`train/groundtruth` folder (whose sorted file list is
`[train/groundtruth/frame1.png]`), so the claim's "returns the sorted files
of the corresponding folder" fails for the ground-truth list. -/
theorem m2caiseg_gt_paths_not_folder_files :
    get_m2caiseg_paths
        (M2FS.mk
          (fun folder sub =>
            if folder = "train" then
              (if sub = "images" then ["frame1.jpg"] else ["frame1.png"])
            else [])
          (fun _ => [288, 384, 3])) "/data" "train"
      = ([⟨"/data/train/images", "frame1.jpg"⟩], [⟨"/data/preprocessed_masks", "frame1.tif"⟩])
  ∧ m2_glob
        (M2FS.mk
          (fun folder sub =>
            if folder = "train" then
              (if sub = "images" then ["frame1.jpg"] else ["frame1.png"])
            else [])
          (fun _ => [288, 384, 3])) "/data" "train" "groundtruth"
      = [⟨"/data/train/groundtruth", "frame1.png"⟩] := by
  decide

/-- C6 (amended): for split "val", `_get_m2caiseg_paths` selects the
trainval-folder files whose filenames do not occur among the filenames of the
train folder (val is trainval minus train, for images and ground truths
separately); for every other split it selects the natsorted files of the
corresponding folder.  The selected image and ground-truth lists are zipped,
every pair whose loaded array shapes differ is dropped, and the returned
lists hold, for each kept pair, the original image path and the preprocessed
mask path `preprocessed_masks/<stem>.tif` derived from the ground-truth file
(not the ground-truth folder file itself). -/
theorem m2caiseg_paths_spec (fs : M2FS) (dataDir split : String) :
    (split ≠ "val" →
      get_m2caiseg_paths fs dataDir split =
        ((((m2_glob fs dataDir split "images").zip (m2_glob fs dataDir split "groundtruth")).filter
            (fun pr => fs.shape pr.1 == fs.shape pr.2)).map (fun pr => pr.1),
         (((m2_glob fs dataDir split "images").zip (m2_glob fs dataDir split "groundtruth")).filter
            (fun pr => fs.shape pr.1 == fs.shape pr.2)).map
            (fun pr => (⟨dataDir ++ "/preprocessed_masks", pyStem pr.2.name ++ ".tif"⟩ : PyPath))))
  ∧ (split = "val" →
      get_m2caiseg_paths fs dataDir split =
        (let selIm := (m2_glob fs dataDir "trainval" "images").filter
            (fun p => !((m2_glob fs dataDir "train" "images").map PyPath.name).contains p.name)
         let selGt := (m2_glob fs dataDir "trainval" "groundtruth").filter
            (fun p => !((m2_glob fs dataDir "train" "groundtruth").map PyPath.name).contains p.name)
         (((selIm.zip selGt).filter (fun pr => fs.shape pr.1 == fs.shape pr.2)).map (fun pr => pr.1),
          ((selIm.zip selGt).filter (fun pr => fs.shape pr.1 == fs.shape pr.2)).map
            (fun pr => (⟨dataDir ++ "/preprocessed_masks", pyStem pr.2.name ++ ".tif"⟩ : PyPath)))))
  ∧ (split = "val" → ∀ p ∈ (get_m2caiseg_paths fs dataDir split).1,
      p ∈ m2_glob fs dataDir "trainval" "images" ∧
      p.name ∉ (m2_glob fs dataDir "train" "images").map PyPath.name) := by
  by_cases hv : split = "val"
  · subst hv
    have heq := m2_collect_eq fs ("/preprocessed_masks")
    refine ⟨fun hne => absurd rfl hne, fun _ => ?_, fun _ => ?_⟩
    · simp [get_m2caiseg_paths, m2_collect_eq]
    · intro p hp
      simp only [get_m2caiseg_paths, beq_self_eq_true, if_true, reduceIte, m2_collect_eq,
        List.mem_map] at hp
      obtain ⟨pr, hpr, rfl⟩ := hp
      have hz := List.of_mem_filter hpr
      have hmem := (List.mem_filter.mp hpr).1
      have hzip := List.of_mem_zip hmem
      have hsel := hzip.1
      have hf := List.mem_filter.mp hsel
      refine ⟨hf.1, ?_⟩
      intro hcon
      have : ((m2_glob fs dataDir "train" "images").map PyPath.name).contains pr.1.name = true := by
        simpa [List.elem_iff] using hcon
      rw [this] at hf
      simp at hf
  · refine ⟨fun _ => ?_, fun h => absurd h hv, fun h => absurd h hv⟩
    simp [get_m2caiseg_paths, hv, m2_collect_eq]

/-- Events of a `get_m2caiseg_dataset` call, in execution order. -/
inductive M2Event where
  | assertSplit
  | gatherPaths
  | printCounts (nImages nGts : Nat)
  | hitBreakpoint
  | buildDataset
deriving Repr, DecidableEq

/-- `get_m2caiseg_dataset` (m2caiseg.py lines 105-137): the split assertion
runs first (raising `AssertionError` for an invalid split before any paths
are gathered); then the paths are gathered, their counts printed, the
built-in `breakpoint()` is hit unconditionally, and only then the dataset is
constructed (identified here by its path lists).  Returns the event trace in
execution order together with the result. -/
def get_m2caiseg_dataset (fs : M2FS) (dataDir split : String) :
    List M2Event × Except PyError (List PyPath × List PyPath) :=
  if !(["train", "val", "test"].contains split) then
    ([], .error .assertionError)
  else
    let (ips, gps) := get_m2caiseg_paths fs dataDir split
    ([.assertSplit, .gatherPaths, .printCounts ips.length gps.length,
      .hitBreakpoint, .buildDataset],
     .ok (ips, gps))

/-- C9: every call of `get_m2caiseg_dataset` with a valid split runs the
trace assert-gather-print-breakpoint-build, hitting the unconditional
`breakpoint()` after printing the path counts and before the dataset is
constructed; every other split raises `AssertionError` with an empty trace
(before any paths are gathered). -/
theorem m2caiseg_dataset_breakpoint (fs : M2FS) (dataDir split : String) :
    (split ∈ ["train", "val", "test"] →
      get_m2caiseg_dataset fs dataDir split =
        ([.assertSplit, .gatherPaths,
          .printCounts (get_m2caiseg_paths fs dataDir split).1.length
            (get_m2caiseg_paths fs dataDir split).2.length,
          .hitBreakpoint, .buildDataset],
          .ok (get_m2caiseg_paths fs dataDir split)))
  ∧ (split ∉ ["train", "val", "test"] →
      get_m2caiseg_dataset fs dataDir split = ([], .error .assertionError)) := by
  constructor
  · intro h
    have hc : (["train", "val", "test"].contains split) = true := by
      simpa [List.elem_iff] using h
    rcases hpair : get_m2caiseg_paths fs dataDir split with ⟨ips, gps⟩
    unfold get_m2caiseg_dataset
    rw [hc, hpair]
    simp
  · intro h
    have hc : (["train", "val", "test"].contains split) = false := by
      simpa [List.elem_iff] using h
    unfold get_m2caiseg_dataset
    rw [hc]
    simp

/-- A concrete m2caiSeg data directory: "train" holds frame1, "trainval"
holds frame1 and frame2, all shapes match. -/
def m2FSW : M2FS :=
  M2FS.mk
    (fun folder sub =>
      if folder = "train" then
        (if sub = "images" then ["frame1.jpg"] else ["frame1.png"])
      else if folder = "trainval" then
        (if sub = "images" then ["frame1.jpg", "frame2.jpg"] else ["frame1.png", "frame2.png"])
      else [])
    (fun _ => [288, 384, 3])

/-- Witness for `m2caiseg_paths_spec`: on `m2FSW`, split "val" returns
exactly the trainval-minus-train pair (frame2). -/
theorem m2caiseg_paths_spec_witness :
    get_m2caiseg_paths m2FSW "/d" "val"
      = ([⟨"/d/trainval/images", "frame2.jpg"⟩], [⟨"/d/preprocessed_masks", "frame2.tif"⟩]) := by
  have h := (m2caiseg_paths_spec m2FSW "/d" "val").2.1 rfl
  rw [h]
  decide

/-- Witness for `m2caiseg_dataset_breakpoint`: on `m2FSW`, split "train" hits
the breakpoint after printing the counts and before building the dataset. -/
theorem m2caiseg_dataset_breakpoint_witness :
    get_m2caiseg_dataset m2FSW "/d" "train"
      = ([.assertSplit, .gatherPaths, .printCounts 1 1, .hitBreakpoint, .buildDataset],
         .ok ([⟨"/d/train/images", "frame1.jpg"⟩], [⟨"/d/preprocessed_masks", "frame1.tif"⟩])) := by
  have h := (m2caiseg_dataset_breakpoint m2FSW "/d" "train").1 (by decide)
  rw [h]
  decide

/-!
`torch_em/data/datasets/medical/palm.py` (claim C7).
-/

/-- The PALM data directory and disk state as `get_palm_paths` observes it:
`listing split ldir` is the `*.bmp` file names in `<data_dir>/<split>/<ldir>`,
`fileExists p` whether path `p` already exists, and `image p` the pixel
values of the label image loaded from `p` (flattened). -/
structure PalmFS where
  listing : String → String → List String
  fileExists : String → Bool
  image : String → List Nat

/-- `_preprocess_labels` (palm.py lines 41-50): each preprocessed path
substitutes ".bmp" by "_preprocessed.tif" in the label path; paths that
already exist are skipped, otherwise `(label == 0).astype(int)` is written.
Returns the preprocessed paths and the performed writes (path, pixels), both
in order. -/
def preprocess_labels (fs : PalmFS) :
    List String → List String × List (String × List Nat)
  | [] => ([], [])
  | lp :: rest =>
    let np := pyReplace lp ".bmp" "_preprocessed.tif"
    let (rps, rws) := preprocess_labels fs rest
    if fs.fileExists np then (np :: rps, rws)
    else (np :: rps, (np, (fs.image lp).map (fun v => if v == 0 then 1 else 0)) :: rws)

/-- The label directory chosen for a `label_choice` (palm.py lines 65-72). -/
def palmLdir (label_choice : String) : Except PyError String :=
  if label_choice == "disc" then .ok "Disc Masks"
  else if label_choice == "atrophy_lesion" then .ok "Lesion Masks/Atrophy"
  else if label_choice == "detachment_lesion" then .ok "Lesion Masks/Detachment"
  else .error (.valueError "not a valid choice of labels.")

/-- `natsorted(glob(os.path.join(data_dir, split, ldir, "*.bmp")))`. -/
def palm_src_paths (fs : PalmFS) (dataDir split ldir : String) : List String :=
  natsorted ((fs.listing split ldir).map
    (fun n => dataDir ++ "/" ++ split ++ "/" ++ ldir ++ "/" ++ n))

/-- `get_palm_paths` (palm.py lines 53-82): assert the split, choose the
label directory, glob and natsort the `*.bmp` label files, preprocess them,
and derive each raw path from the preprocessed label path by substituting the
label directory with "Images" and "_preprocessed.tif" with ".jpg"; the final
assert compares the list lengths.  Returns raw paths, label paths and the
performed preprocessing writes. -/
def get_palm_paths (fs : PalmFS) (dataDir split label_choice : String) :
    Except PyError (List String × List String × List (String × List Nat)) :=
  if !(["Training", "Validation", "Testing"].contains split) then
    .error .assertionError
  else
    match palmLdir label_choice with
    | .error e => .error e
    | .ok ldir =>
      let pl := preprocess_labels fs (palm_src_paths fs dataDir split ldir)
      let label_paths := pl.1
      let raw_paths := (label_paths.map (fun p => pyReplace p ldir "Images")).map
        (fun p => pyReplace p "_preprocessed.tif" ".jpg")
      if label_paths.length == raw_paths.length then
        .ok (raw_paths, label_paths, pl.2)
      else .error .assertionError

/-- `_preprocess_labels` equals the map of the path substitution paired with
the writes for exactly the not-yet-existing target files. -/
theorem preprocess_labels_eq (fs : PalmFS) (lps : List String) :
    preprocess_labels fs lps =
      (lps.map (fun lp => pyReplace lp ".bmp" "_preprocessed.tif"),
       (lps.filter (fun lp => !fs.fileExists (pyReplace lp ".bmp" "_preprocessed.tif"))).map
         (fun lp => (pyReplace lp ".bmp" "_preprocessed.tif",
           (fs.image lp).map (fun v => if v == 0 then 1 else 0)))) := by
  induction lps with
  | nil => rfl
  | cons lp rest ih =>
    by_cases hex : fs.fileExists (pyReplace lp ".bmp" "_preprocessed.tif") <;>
      simp [preprocess_labels, List.filter_cons, hex, ih]

/-- C7: for a valid split and label choice, `get_palm_paths` succeeds and
returns raw and label path lists of equal length; each label path is a source
`.bmp` path with ".bmp" substituted by "_preprocessed.tif", each raw path is
its label path with the label directory substituted by "Images" and
"_preprocessed.tif" by ".jpg"; `_preprocess_labels` writes one file per label
path whose target does not already exist (existing files are skipped, so each
file is written at most once), and each written pixel is 1 exactly where the
original label pixel is 0 and 0 elsewhere. -/
theorem palm_paths_spec (fs : PalmFS) (dataDir split choice ldir : String)
    (hsplit : split ∈ ["Training", "Validation", "Testing"])
    (hldir : palmLdir choice = .ok ldir) :
    ∃ raws labels writes,
      get_palm_paths fs dataDir split choice = .ok (raws, labels, writes)
    ∧ raws.length = labels.length
    ∧ raws = labels.map (fun p => pyReplace (pyReplace p ldir "Images") "_preprocessed.tif" ".jpg")
    ∧ labels = (palm_src_paths fs dataDir split ldir).map
        (fun lp => pyReplace lp ".bmp" "_preprocessed.tif")
    ∧ writes = ((palm_src_paths fs dataDir split ldir).filter
          (fun lp => !fs.fileExists (pyReplace lp ".bmp" "_preprocessed.tif"))).map
          (fun lp => (pyReplace lp ".bmp" "_preprocessed.tif",
            (fs.image lp).map (fun v => if v == 0 then 1 else 0)))
    ∧ (∀ w ∈ writes, fs.fileExists w.1 = false)
    ∧ (∀ img : List Nat, ∀ i : Fin img.length,
        (img.map (fun v => if v == 0 then 1 else 0)).get (Fin.cast (List.length_map img _).symm i)
          = if img.get i = 0 then 1 else 0) := by
  have hc : (["Training", "Validation", "Testing"].contains split) = true := by
    simpa [List.elem_iff] using hsplit
  refine ⟨((((palm_src_paths fs dataDir split ldir).map
        (fun lp => pyReplace lp ".bmp" "_preprocessed.tif")).map
        (fun p => pyReplace p ldir "Images")).map
        (fun p => pyReplace p "_preprocessed.tif" ".jpg")),
    (palm_src_paths fs dataDir split ldir).map (fun lp => pyReplace lp ".bmp" "_preprocessed.tif"),
    ((palm_src_paths fs dataDir split ldir).filter
        (fun lp => !fs.fileExists (pyReplace lp ".bmp" "_preprocessed.tif"))).map
        (fun lp => (pyReplace lp ".bmp" "_preprocessed.tif",
          (fs.image lp).map (fun v => if v == 0 then 1 else 0))),
    ?_, by simp, by simp [List.map_map], rfl, rfl, ?_, ?_⟩
  · unfold get_palm_paths
    rw [hc, hldir]
    simp [preprocess_labels_eq]
  · intro w hw
    simp only [List.mem_map, List.mem_filter] at hw
    obtain ⟨lp, ⟨_, hne⟩, rfl⟩ := hw
    simpa using hne
  · intro img i
    simp [List.getElem_map]

/-- Witness for `palm_paths_spec`: a single label file `H0001.bmp` with pixels
`[0, 3, 0]` and no pre-existing output. -/
theorem palm_paths_spec_witness :
    get_palm_paths
        (PalmFS.mk
          (fun split ldir =>
            if split = "Training" then (if ldir = "Disc Masks" then ["H0001.bmp"] else []) else [])
          (fun _ => false)
          (fun _ => [0, 3, 0])) "/p" "Training" "disc"
      = .ok (["/p/Training/Images/H0001.jpg"],
             ["/p/Training/Disc Masks/H0001_preprocessed.tif"],
             [("/p/Training/Disc Masks/H0001_preprocessed.tif", [1, 0, 1])]) := by
  obtain ⟨raws, labels, writes, heq, hlen, hr, hl, hw, hnex, hpix⟩ :=
    palm_paths_spec
      (PalmFS.mk
        (fun split ldir =>
          if split = "Training" then (if ldir = "Disc Masks" then ["H0001.bmp"] else []) else [])
        (fun _ => false)
        (fun _ => [0, 3, 0])) "/p" "Training" "disc" "Disc Masks" (by decide) (by decide)
  rw [heq]
  subst hl
  subst hr
  subst hw
  decide
